import Mathlib

/-!
Shallow embedding of the task-execution core (`TaskExecutor`) of the
claude-coder repository.  The executor drives a task through request/response
rounds: it issues model requests, streams responses into a buffered output
channel, gates tool invocations, and handles cancellation, errors and retries.

Conventions of the embedding:
* Stateful methods become pure functions `ExecState → … → ExecState × List Event`;
  the `Event` trace records externally visible side effects (asks posted to the
  user, `say` turns, stream opening, re-entry into `makeClaudeRequest`, …).
  Re-entrant calls into `makeClaudeRequest` are recorded as the trace marker
  `Event.invokedMakeRequest` rather than unfolded, mirroring the asynchronous
  call in the source.
* Timestamps (`Date.now()`) are passed in as explicit `Nat` parameters.
* JS truthiness on optional numbers/strings is modelled explicitly
  (`none` and `some 0` / `some ""` are falsy).
* Conversation messages are modelled in the V1 message format, the format this
  core itself produces (`isV1ClaudeMessage` holds for every message it writes).
* A tool-approval message stores a JSON-serialised `ChatTool` in its `text`
  field; since the core always round-trips it through `JSON.parse` /
  `JSON.stringify`, the embedding keeps the parsed form (`toolPayload`).
-/

namespace ClaudeCoder

/-- Lifecycle states of a task (`TaskState` in `task-executor/utils`). -/
inductive TaskState
  | IDLE
  | WAITING_FOR_API
  | PROCESSING_RESPONSE
  | WAITING_FOR_USER
  | COMPLETED
  | ABORTED
  deriving DecidableEq, Repr

/-- Approval states a tool-approval entry can carry (`ChatTool.approvalState`). -/
inductive ApprovalState
  | pending
  | loading
  | approved
  | rejected
  | error
  deriving DecidableEq, Repr

/-- The parsed payload of a tool-approval message (the fields of `ChatTool`
relevant to the core). -/
structure ChatTool where
  approvalState : Option ApprovalState
  error : Option String
  deriving DecidableEq, Repr

/-- Message kind: `ClaudeMessage.type`. -/
inductive MsgType
  | ask
  | say
  deriving DecidableEq, Repr

/-- The `ClaudeAsk` kinds the core uses. -/
inductive AskKind
  | tool
  | resumeTask
  | apiReqFailed
  deriving DecidableEq, Repr

/-- The `ClaudeSay` kinds the core uses. -/
inductive SayKind
  | apiReqStarted
  | text
  | userFeedback
  | paymentRequired
  | unauthorized
  | apiReqRetried
  deriving DecidableEq, Repr

/-- A message of the conversation message list (`ClaudeMessage`, V1 format). -/
structure ClaudeMessage where
  mtype : MsgType
  askKind : Option AskKind
  sayKind : Option SayKind
  ts : Nat
  text : Option String
  toolPayload : Option ChatTool
  isDone : Bool
  isFetching : Bool
  isError : Bool
  errorText : Option String
  deriving DecidableEq, Repr

/-- Role of an API-history turn. -/
inductive Role
  | user
  | assistant
  deriving DecidableEq, Repr

/-- A content block of a user/assistant turn. -/
inductive ContentBlock
  | textBlock (text : String)
  | imageBlock (source : String)
  deriving DecidableEq, Repr

/-- The content of an API-history turn: either a raw string or a block list. -/
inductive ApiContent
  | str (s : String)
  | blocks (l : List ContentBlock)
  deriving DecidableEq, Repr

/-- A turn of the durable API conversation history (`ApiHistoryItem`). -/
structure ApiHistoryItem where
  role : Role
  ts : Option Nat
  content : ApiContent
  deriving DecidableEq, Repr

/-- A result produced by the tool subsystem (`ToolResult`). -/
structure ToolResult where
  name : String
  result : ApiContent
  deriving DecidableEq, Repr

/-- Error taxonomy of `TaskError` (`API_ERROR` is the generic provider error). -/
inductive ErrKind
  | UNAUTHORIZED
  | PAYMENT_REQUIRED
  | API_ERROR
  | UNKNOWN_ERROR
  deriving DecidableEq, Repr

/-- A classified round error (`TaskError`). -/
structure TaskError where
  type : ErrKind
  message : String
  deriving DecidableEq, Repr

/-- The response kinds of an answered ask (`ClaudeAskResponse`). -/
inductive RespKind
  | yesButtonTapped
  | noButtonTapped
  | messageResponse
  deriving DecidableEq, Repr

/-- A fulfilled ask response (`AskResponse`). -/
structure AskResponse where
  response : RespKind
  text : Option String
  images : Option (List String)
  deriving DecidableEq, Repr

/-- Externally visible side effects of one executor step. -/
inductive Event
  | resetTools
  | abortedTools
  | abortedController
  | askedUser (kind : AskKind) (question : String)
  | said (kind : SayKind) (txt : String) (ts : Nat)
  | appendedToMessage (ts : Nat) (txt : String)
  | updatedAsk (ts : Nat)
  | resolvedAsk (ts : Nat) (resp : RespKind)
  | addedApiHistory (item : ApiHistoryItem)
  | openedStream
  | startedProcessing (reqTs : Nat)
  | invokedMakeRequest
  | postedState
  deriving DecidableEq, Repr

/-- The mutable fields of `TaskExecutor` together with the two stores it
drives (the message list and the API conversation history). -/
structure ExecState where
  state : TaskState
  currentUserContent : Option (List ContentBlock)
  isRequestCancelled : Bool
  consecutiveErrorCount : Nat
  isAborting : Bool
  streamPaused : Bool
  textBuffer : String
  flushTimeoutSet : Bool
  lastFlushTime : Nat
  currentReplyId : Option Nat
  claudeMessages : List ClaudeMessage
  apiConversationHistory : List ApiHistoryItem
  deriving DecidableEq, Repr

/-- Result of an entry point that can throw (`newMessage` / `startTask` /
`resumeTask` throw while an abort is in progress). -/
structure StepResult where
  s : ExecState
  events : List Event
  thrown : Option String
  deriving DecidableEq, Repr

/-- Source `JSON.parse(msg.text ?? "\x7b\x7d")` on a tool-approval message: parsing an
absent payload yields a `ChatTool` with no fields set. -/
def parseTool (m : ClaudeMessage) : ChatTool :=
  m.toolPayload.getD { approvalState := none, error := none }

/-- Modelled from the spec: the conversation store's `appendText(id, text)`
(`StateManager.appendToClaudeMessage`, not under src/) appends text to the
message identified by timestamp. -/
def appendTextToMessages (msgs : List ClaudeMessage) (ts : Nat) (txt : String) :
    List ClaudeMessage :=
  msgs.map fun m => if m.ts = ts then { m with text := some (m.text.getD "" ++ txt) } else m

/-- Modelled from the spec: the conversation store's `updateTurn(id, patch)`
(`StateManager.updateClaudeMessage`, not under src/) replaces the message
identified by timestamp. -/
def updateClaudeMessage (msgs : List ClaudeMessage) (ts : Nat) (newMsg : ClaudeMessage) :
    List ClaudeMessage :=
  msgs.map fun m => if m.ts = ts then newMsg else m

/-- Modelled from the spec: `ask_with_id` re-asks against a message that
already exists in history (`updateAsk` in `TaskExecutorUtils`, not under
src/): the entry keeps its identity and its tool payload is replaced. -/
def updateAskMsg (msgs : List ClaudeMessage) (ts : Nat) (tool : ChatTool) :
    List ClaudeMessage :=
  msgs.map fun m => if m.ts = ts then { m with toolPayload := some tool } else m

/-- Modelled from the spec: the conversation store's `updateTurn(id, patch)`
for the API history (`StateManager.updateApiHistoryItem`, not under src/):
the turn identified by timestamp is replaced by the patch, keeping its
identity key. -/
def updateApiHistoryItem (hist : List ApiHistoryItem) (ts : Nat) (item : ApiHistoryItem) :
    List ApiHistoryItem :=
  hist.map fun x => if x.ts = some ts then { item with ts := some ts } else x

/-- A fresh `say` message as created by `TaskExecutorUtils.say` (modelled from
the spec: `addTurn` with a new timestamp). -/
def mkSayMessage (kind : SayKind) (txt : String) (ts : Nat) : ClaudeMessage :=
  { mtype := MsgType.say, askKind := none, sayKind := some kind, ts := ts,
    text := some txt, toolPayload := none, isDone := false, isFetching := true,
    isError := false, errorText := none }

/-- Modelled from the spec: `say(kind, text)` adds a turn to the message list
and notifies the UI; it returns the new turn's timestamp to the caller. -/
def sayTo (s : ExecState) (kind : SayKind) (txt : String) (ts : Nat) :
    ExecState × List Event :=
  ({ s with claudeMessages := s.claudeMessages ++ [mkSayMessage kind txt ts] },
   [Event.said kind txt ts])

/-- JS `String.prototype.trim()`: strip leading and trailing whitespace.
(Defined structurally over the character list so that the kernel can
evaluate it; Lean's own `String.trim` is defined by well-founded recursion
on byte positions and does not reduce.) -/
def strTrim (s : String) : String :=
  ⟨((s.data.dropWhile Char.isWhitespace).reverse.dropWhile Char.isWhitespace).reverse⟩

/-! ### String constants of the executor (verbatim from the source) -/

def BUFFER_FLUSH_INTERVAL : Nat := 10

def BUFFER_SIZE_THRESHOLD : Nat := 50

def continuationPromptText : String :=
  "Let's continue with the task, from where we left off."

def interruptedToolErrorText : String :=
  "Task was interrupted before this tool call could be completed."

def requestCancelledText : String := "Request cancelled by user"

def resumeTaskQuestionText : String :=
  "Task was interrupted before the last response could be generated. Would you like to resume the task?"

def resumeAfterErrorsQuestionText : String :=
  "Claude has encountered an error 3 times in a row. Would you like to resume the task?"

def failedResponseText : String :=
  "Failed to generate a response, please try again."

def errorGenerationText : String :=
  "An error occurred in the generation of the response. Please try again."

def mustUseToolText : String :=
  "You must use a tool to proceed. Either use attempt_completion if you've completed the task, or ask_followup_question if you need more information."

def taskCompletedText : String := "Task completed successfully."

/-! ### The executor's operations -/

/-- Source `TaskExecutor.normalizeUserContent`: empty input (no blocks, or a first
text block whose text is blank) becomes the canonical continuation prompt. -/
def normalizeUserContent (content : List ContentBlock) : List ContentBlock :=
  match content with
  | [] => [ContentBlock.textBlock continuationPromptText]
  | ContentBlock.textBlock t :: _ =>
      if strTrim t = "" then [ContentBlock.textBlock continuationPromptText] else content
  | _ => content

/-- Source `TaskExecutor.handleAskResponse`: resolves the ask of the most recent
message of type `ask` in the message list; the caller supplies no
correlation id of its own. -/
def handleAskResponse (msgs : List ClaudeMessage) (resp : RespKind) : List Event :=
  match msgs.reverse.find? (fun m => m.mtype == MsgType.ask) with
  | some lastAskMessage => [Event.resolvedAsk lastAskMessage.ts resp]
  | none => []

/-- Source `TaskExecutor.flushTextBuffer`: whitespace-only buffers and falsy reply
ids are ignored; otherwise flush immediately when forced, large enough or
stale enough, and schedule a deferred flush only while not paused. -/
def flushTextBuffer (s : ExecState) (currentReplyId : Option Nat) (force : Bool)
    (now : Nat) : ExecState × List Event :=
  if strTrim s.textBuffer = "" ∨ currentReplyId.getD 0 = 0 then (s, [])
  else
    let rid := currentReplyId.getD 0
    let timeSinceLastFlush := now - s.lastFlushTime
    let s1 := { s with flushTimeoutSet := false }
    if force ∨ BUFFER_SIZE_THRESHOLD ≤ s1.textBuffer.length ∨
        BUFFER_FLUSH_INTERVAL ≤ timeSinceLastFlush then
      let contentToFlush := s1.textBuffer
      ({ s1 with
          textBuffer := "",
          claudeMessages := appendTextToMessages s1.claudeMessages rid contentToFlush,
          lastFlushTime := now },
       [Event.appendedToMessage rid contentToFlush, Event.postedState])
    else if s1.streamPaused = false then
      ({ s1 with flushTimeoutSet := true }, [])
    else (s1, [])

/-- Source `TaskExecutor.newMessage`.  Note: unlike `startTask`/`resumeTask` it
stores the given content without normalization.  Accessing `message[0]` of an
empty list throws after the state mutations have happened. -/
def newMessage (s : ExecState) (message : List ContentBlock) (sayTs : Nat) :
    StepResult :=
  if s.isAborting then
    { s := s, events := [], thrown := some "Cannot start new message while aborting" }
  else
    let s1 := { s with
                state := TaskState.WAITING_FOR_API, isRequestCancelled := false,
                currentUserContent := some message }
    match message with
    | [] => { s := s1, events := [], thrown := some "TypeError: message[0] is undefined" }
    | b :: _ =>
      let feedback := match b with
        | ContentBlock.textBlock t => t
        | _ => "New message"
      let (s2, ev) := sayTo s1 SayKind.userFeedback feedback sayTs
      { s := s2, events := ev ++ [Event.invokedMakeRequest], thrown := none }

/-- Source `TaskExecutor.startTask`. -/
def startTask (s : ExecState) (userContent : List ContentBlock) : StepResult :=
  if s.isAborting then
    { s := s, events := [], thrown := some "Cannot start task while aborting" }
  else
    let s1 := { s with
                state := TaskState.WAITING_FOR_API,
                currentUserContent := some (normalizeUserContent userContent),
                isRequestCancelled := false, consecutiveErrorCount := 0 }
    { s := s1, events := [Event.invokedMakeRequest], thrown := none }

/-- Source `TaskExecutor.resumeTask`: only acts from `WAITING_FOR_USER`; otherwise it
merely logs an error. -/
def resumeTask (s : ExecState) (userContent : List ContentBlock) : StepResult :=
  if s.isAborting then
    { s := s, events := [], thrown := some "Cannot resume task while aborting" }
  else if s.state = TaskState.WAITING_FOR_USER then
    let s1 := { s with
                state := TaskState.WAITING_FOR_API,
                currentUserContent := some (normalizeUserContent userContent),
                isRequestCancelled := false, consecutiveErrorCount := 0 }
    { s := s1, events := [Event.invokedMakeRequest], thrown := none }
  else { s := s, events := [], thrown := none }

/-- Predicate of the `lastApiRequest` search in `cancelCurrentRequest`. -/
def isApiReqStartedMsg (m : ClaudeMessage) : Bool :=
  m.mtype == MsgType.say && m.sayKind == some SayKind.apiReqStarted

/-- Predicate of the `lastToolRequest` search in `cancelCurrentRequest`:
a tool-approval message whose parsed payload is not already in `error`. -/
def isCancellableToolMsg (m : ClaudeMessage) : Bool :=
  (m.askKind == some AskKind.tool) && ((parseTool m).approvalState != some ApprovalState.error)

/-- The history rewrites performed by `cancelCurrentRequest`: both searches
run against the message list as read before any update; then the most recent
not-yet-errored tool-approval entry is rewritten to an error state (unless
already approved), and afterwards the most recent `api_req_started` entry is
marked done-with-error (unless already done). -/
def cancelRewrites (msgs : List ClaudeMessage) : List ClaudeMessage × List Event :=
  let lastApiRequest := msgs.reverse.find? isApiReqStartedMsg
  let lastToolRequest := msgs.reverse.find? isCancellableToolMsg
  let toolStep : List ClaudeMessage × List Event :=
    match lastToolRequest with
    | some tm =>
        let parsedTool := parseTool tm
        if parsedTool.approvalState ≠ some ApprovalState.approved then
          (updateAskMsg msgs tm.ts
             { parsedTool with
               approvalState := some ApprovalState.error,
               error := some interruptedToolErrorText },
           [Event.updatedAsk tm.ts])
        else (msgs, [])
    | none => (msgs, [])
  let apiStep : List ClaudeMessage :=
    match lastApiRequest with
    | some am =>
        if !am.isDone then
          updateClaudeMessage toolStep.1 am.ts
            { am with
              isDone := true, isFetching := false,
              errorText := some requestCancelledText, isError := true }
        else toolStep.1
    | none => toolStep.1
  (apiStep, toolStep.2)

/-- Source `TaskExecutor.cancelCurrentRequest`.  The continuation of the posted
`resume_task` ask runs asynchronously when the user answers and is modelled
separately (`resumeAskContinuation`). -/
def cancelCurrentRequest (s : ExecState) : ExecState × List Event :=
  if s.isRequestCancelled then (s, [])
  else if s.claudeMessages.length = 2 then (s, [])
  else
    let s1 := { s with isRequestCancelled := true, state := TaskState.ABORTED }
    let rewrites := cancelRewrites s1.claudeMessages
    ({ s1 with claudeMessages := rewrites.1 },
     Event.abortedController :: rewrites.2 ++
       [Event.askedUser AskKind.resumeTask resumeTaskQuestionText, Event.postedState])

/-- JS truthiness of an optional string. -/
def optStrTruthy : Option String → Bool
  | some t => t ≠ ""
  | none => false

/-- The `.then` continuation of the `resume_task` ask posted by
`cancelCurrentRequest` (it runs when the user eventually answers). -/
def resumeAskContinuation (s : ExecState) (res : AskResponse) : ExecState × List Event :=
  if res.response = RespKind.yesButtonTapped then
    ({ s with
        state := TaskState.WAITING_FOR_API,
        currentUserContent := some [ContentBlock.textBlock continuationPromptText] },
     [Event.invokedMakeRequest])
  else if (res.response = RespKind.noButtonTapped ∧ optStrTruthy res.text) ∨
      res.images ≠ none then
    let c1 : List ContentBlock := match res.text with
      | some t => if t ≠ "" then [ContentBlock.textBlock t] else []
      | none => []
    let c2 : List ContentBlock := match res.images with
      | some imgs => imgs.map ContentBlock.imageBlock
      | none => []
    ({ s with currentUserContent := some (c1 ++ c2), state := TaskState.WAITING_FOR_API },
     [Event.invokedMakeRequest])
  else ({ s with state := TaskState.COMPLETED }, [])

/-- Source `TaskExecutor.resetState`. -/
def resetState (s : ExecState) (now : Nat) : ExecState × List Event :=
  ({ s with
      flushTimeoutSet := false, isRequestCancelled := false,
      consecutiveErrorCount := 0, state := TaskState.WAITING_FOR_USER,
      streamPaused := false, textBuffer := "", lastFlushTime := now,
      currentReplyId := none },
   [Event.abortedController, Event.postedState])

/-- Source `TaskExecutor.abortTask`: idempotent; cancels the request, aborts the tool
subsystem, resets per-round state, and finally clears the aborting flag. -/
def abortTask (s : ExecState) (now : Nat) : ExecState × List Event :=
  if s.isAborting then (s, [])
  else
    let s0 := { s with isAborting := true }
    let (s1, ev1) := cancelCurrentRequest s0
    let (s3, ev3) := resetState s1 now
    ({ s3 with isAborting := false }, ev1 ++ [Event.abortedTools] ++ ev3)

/-- External (`ApiManager.createUserReadableRequest`, outside the core); its
value plays no role in the state machine and is irrelevant to every claim. -/
def createUserReadableRequest (_content : List ContentBlock) : String :=
  "request"

/-- Source `TaskExecutor.makeClaudeRequest` up to handing the opened stream to
response processing (`Event.startedProcessing`); `reqTs` is the timestamp
the `api_req_started` turn receives. -/
def makeClaudeRequest (s : ExecState) (reqTs : Nat) (now : Nat) :
    ExecState × List Event :=
  if s.state ≠ TaskState.WAITING_FOR_API ∨ s.currentUserContent = none ∨
      s.isRequestCancelled ∨ s.isAborting then
    (s, [])
  else
    let content := s.currentUserContent.getD []
    let s1 := { s with
                isRequestCancelled := false, streamPaused := false,
                textBuffer := "", lastFlushTime := now, currentReplyId := none }
    let ev1 := [Event.resetTools]
    let ev2 := if 3 ≤ s1.consecutiveErrorCount then
        [Event.askedUser AskKind.resumeTask resumeAfterErrorsQuestionText]
      else []
    let userItem : ApiHistoryItem :=
      { role := Role.user, ts := none, content := ApiContent.blocks content }
    let s2 := { s1 with apiConversationHistory := s1.apiConversationHistory ++ [userItem] }
    let (s3, ev3) := sayTo s2 SayKind.apiReqStarted (createUserReadableRequest content) reqTs
    let ev4 := [Event.openedStream]
    if s3.isRequestCancelled ∨ s3.isAborting then
      (s3, ev1 ++ ev2 ++ [Event.addedApiHistory userItem] ++ ev3 ++ ev4 ++
        [Event.abortedController])
    else
      ({ s3 with state := TaskState.PROCESSING_RESPONSE },
       ev1 ++ ev2 ++ [Event.addedApiHistory userItem] ++ ev3 ++ ev4 ++
         [Event.startedProcessing reqTs])

/-- Emptiness test `!content.length` of an `ApiHistoryItem` content (a raw string has its
string length, a block list its list length). -/
def apiContentLengthZero : ApiContent → Bool
  | ApiContent.str s => s.length = 0
  | ApiContent.blocks l => l.isEmpty

/-- Blank-head test `isTextBlock(content[0]) && !content[0].text.trim()`. -/
def headTextBlockBlank : ApiContent → Bool
  | ApiContent.blocks (ContentBlock.textBlock t :: _) => strTrim t = ""
  | _ => false

/-- The empty-content repair at the top of `finishProcessingResponse`: when
the assistant turn ended up with no content or a blank leading text block,
the history entry is replaced by an explicit failure marker (provided the
turn carries a truthy timestamp). -/
def repairEmptyAssistant (s : ExecState) (assistantResponses : ApiHistoryItem) : ExecState :=
  if apiContentLengthZero assistantResponses.content ||
      headTextBlockBlank assistantResponses.content then
    match assistantResponses.ts with
    | some t =>
        if t ≠ 0 then
          { s with
            apiConversationHistory :=
              updateApiHistoryItem s.apiConversationHistory t
                { role := Role.assistant, ts := none,
                  content := ApiContent.blocks [ContentBlock.textBlock failedResponseText] } }
        else s
    | none => s
  else s

/-- Source `TaskExecutor.finishProcessingResponse`; the tool results are supplied by
the external tool subsystem (`getToolResults`). -/
def finishProcessingResponse (s : ExecState) (assistantResponses : ApiHistoryItem)
    (toolResults : List ToolResult) : ExecState × List Event :=
  if s.isRequestCancelled ∨ s.isAborting then (s, [])
  else
    let s1 := repairEmptyAssistant s assistantResponses
    if 0 < toolResults.length then
      match toolResults.find? (fun r => r.name == "attempt_completion") with
      | some completionAttempted =>
          let s2 := { s1 with
              apiConversationHistory := s1.apiConversationHistory ++
                [ ApiHistoryItem.mk Role.user none completionAttempted.result,
                  ApiHistoryItem.mk Role.assistant none
                    (ApiContent.blocks [ContentBlock.textBlock taskCompletedText]) ] }
          ({ s2 with state := TaskState.COMPLETED }, [])
      | none =>
          let nextContent := (toolResults.map (fun r => match r.result with
            | ApiContent.str txt => [ContentBlock.textBlock txt]
            | ApiContent.blocks l => l)).flatten
          ({ s1 with
              state := TaskState.WAITING_FOR_API,
              currentUserContent := some nextContent },
           [Event.invokedMakeRequest])
    else
      ({ s1 with
          state := TaskState.WAITING_FOR_API,
          currentUserContent := some [ContentBlock.textBlock mustUseToolText] },
       [Event.invokedMakeRequest])

/-- The trailing-assistant-entry repair performed by `handleApiError`:
a raw-string content becomes a block list, and a blank leading text block is
replaced by an explicit error placeholder (a non-blank one is trimmed). -/
def fixLastAssistant (hist : List ApiHistoryItem) : List ApiHistoryItem :=
  match hist.getLast? with
  | none => hist
  | some m =>
    if m.role = Role.assistant then
      match m.ts with
      | some t =>
          if t ≠ 0 then
            let content0 := match m.content with
              | ApiContent.str s0 => ApiContent.blocks [ContentBlock.textBlock s0]
              | c => c
            let content1 := match content0 with
              | ApiContent.blocks (ContentBlock.textBlock tx :: rest) =>
                  ApiContent.blocks (ContentBlock.textBlock
                    (if strTrim tx = "" then errorGenerationText else strTrim tx) :: rest)
              | c => c
            updateApiHistoryItem hist t { m with content := content1 }
          else hist
      | none => hist
    else hist

/-- Source `TaskExecutor.handleApiError`; the answer to the `api_req_failed` ask is
supplied as an oracle, and re-entry into `makeClaudeRequest` is the trace
marker `Event.invokedMakeRequest`. -/
def handleApiError (s : ExecState) (err : TaskError) (resp : AskResponse)
    (sayTs : Nat) : ExecState × List Event :=
  let ev0 := [Event.resetTools]
  let s1 := { s with apiConversationHistory := fixLastAssistant s.apiConversationHistory }
  let s2 := { s1 with consecutiveErrorCount := s1.consecutiveErrorCount + 1 }
  if err.type = ErrKind.PAYMENT_REQUIRED ∨ err.type = ErrKind.UNAUTHORIZED then
    let s3 := { s2 with state := TaskState.IDLE }
    let (s4, ev1) := sayTo s3
      (if err.type = ErrKind.PAYMENT_REQUIRED then SayKind.paymentRequired
       else SayKind.unauthorized) err.message sayTs
    (s4, ev0 ++ ev1)
  else
    let ev1 := [Event.askedUser AskKind.apiReqFailed err.message]
    if resp.response = RespKind.yesButtonTapped ∨ resp.response = RespKind.messageResponse then
      let (s3, ev2) := sayTo s2 SayKind.apiReqRetried "" sayTs
      ({ s3 with state := TaskState.WAITING_FOR_API },
       ev0 ++ ev1 ++ ev2 ++ [Event.invokedMakeRequest])
    else
      ({ s2 with state := TaskState.COMPLETED }, ev0 ++ ev1)

/-! ### Concrete states used to exercise the model -/

/-- A quiescent executor state. -/
def baseState : ExecState :=
  { state := TaskState.IDLE, currentUserContent := none, isRequestCancelled := false,
    consecutiveErrorCount := 0, isAborting := false, streamPaused := false,
    textBuffer := "", flushTimeoutSet := false, lastFlushTime := 0,
    currentReplyId := none, claudeMessages := [], apiConversationHistory := [] }

/-- A plain text `say` message. -/
def sampleSay (ts : Nat) : ClaudeMessage := mkSayMessage SayKind.text "hello" ts

/-- An `api_req_started` message with the given done flag. -/
def sampleApiStarted (ts : Nat) (done : Bool) : ClaudeMessage :=
  { mkSayMessage SayKind.apiReqStarted "req" ts with isDone := done, isFetching := !done }

/-- A tool-approval ask message carrying the given approval state. -/
def sampleToolAsk (ts : Nat) (st : Option ApprovalState) : ClaudeMessage :=
  { mtype := MsgType.ask, askKind := some AskKind.tool, sayKind := none, ts := ts,
    text := none, toolPayload := some { approvalState := st, error := none },
    isDone := false, isFetching := false, isError := false, errorText := none }

/-- State for the C1 counterexample: the most recent `api_req_started` entry
(ts 4) is already done while an older one (ts 3) is not, and the most recent
tool-approval entry (ts 5) is pending. -/
def c1CexState : ExecState :=
  { baseState with
    state := TaskState.PROCESSING_RESPONSE,
    claudeMessages :=
      [sampleSay 1, sampleSay 2, sampleApiStarted 3 false, sampleApiStarted 4 true,
       sampleToolAsk 5 (some ApprovalState.pending)] }

/-- State for the C1 witness: one undone `api_req_started` entry (ts 3), most
recent, and a pending tool-approval entry (ts 4). -/
def c1WitState : ExecState :=
  { baseState with
    state := TaskState.PROCESSING_RESPONSE,
    claudeMessages :=
      [sampleSay 1, sampleSay 2, sampleApiStarted 3 false,
       sampleToolAsk 4 (some ApprovalState.pending)] }

/-- State for the C7 counterexample: a whitespace-only, non-empty buffer. -/
def c7CexState : ExecState :=
  { baseState with textBuffer := " ", claudeMessages := [sampleSay 5] }

/-- State for the C7 witness: a buffer with real content. -/
def c7WitState : ExecState :=
  { baseState with
    textBuffer := "hi", lastFlushTime := 100,
    claudeMessages := [sampleSay 5] }

/-- Message list for the C10 witness. -/
def c10Msgs : List ClaudeMessage :=
  [sampleSay 1, sampleToolAsk 2 (some ApprovalState.pending), sampleSay 3]

/-- An assistant API-history turn with the given timestamp and text. -/
def sampleAssistantItem (ts : Nat) (txt : String) : ApiHistoryItem :=
  { role := Role.assistant, ts := some ts,
    content := ApiContent.blocks [ContentBlock.textBlock txt] }

/-- State for the C2 witness: the history ends with a blank assistant turn. -/
def c2WitState : ExecState :=
  { baseState with
    state := TaskState.PROCESSING_RESPONSE,
    apiConversationHistory :=
      [{ role := Role.user, ts := none,
         content := ApiContent.blocks [ContentBlock.textBlock "list files"] },
       sampleAssistantItem 7 ""] }

/-- State for the C8 witness: waiting for the user, not aborting. -/
def c8WitState : ExecState := { baseState with state := TaskState.WAITING_FOR_USER }

/-- A task error with a fixed message. -/
def sampleErr (k : ErrKind) : TaskError := { type := k, message := "boom" }

/-- An affirmative ask response. -/
def yesResp : AskResponse :=
  { response := RespKind.yesButtonTapped, text := none, images := none }

/-- A negative ask response. -/
def noResp : AskResponse :=
  { response := RespKind.noButtonTapped, text := none, images := none }

/-- State for the C4 witness: idle with pending user content. -/
def c4WitState : ExecState :=
  { baseState with currentUserContent := some [ContentBlock.textBlock "hi"] }

/-! ### Helper lemmas about timestamp-keyed list updates -/

theorem find?_map_pred {α : Type} (f : α → α) (p : α → Bool)
    (h : ∀ x, p (f x) = p x) :
    ∀ l : List α, (l.map f).find? p = (l.find? p).map f := by
  intro l
  induction l with
  | nil => rfl
  | cons a t ih =>
    simp only [List.map_cons, List.find?_cons]
    rw [h a]
    cases hp : p a <;> simp [ih]

theorem find?_and {α : Type} (p q : α → Bool) :
    ∀ (l : List α) (m : α), l.find? p = some m → q m = true →
      l.find? (fun x => p x && q x) = some m := by
  intro l
  induction l with
  | nil => intro m h; simp [List.find?] at h
  | cons a t ih =>
    intro m h hq
    simp only [List.find?_cons] at h ⊢
    cases hp : p a with
    | true =>
      rw [hp] at h
      simp only [Option.some.injEq] at h
      subst h
      simp [hp, hq]
    | false =>
      rw [hp] at h
      simp only [hp, Bool.false_and]
      exact ih m h hq

theorem find?_eq_head?_filter {α : Type} (p : α → Bool) :
    ∀ l : List α, l.find? p = (l.filter p).head? := by
  intro l
  induction l with
  | nil => rfl
  | cons a t ih =>
    simp only [List.find?_cons, List.filter_cons]
    cases hp : p a
    · show List.find? p t = _
      rw [if_neg (by simp), ih]
    · simp [ih]

theorem reverse_find?_eq_getLast?_filter {α : Type} (p : α → Bool) (l : List α) :
    l.reverse.find? p = (l.filter p).getLast? := by
  rw [find?_eq_head?_filter, List.filter_reverse, List.head?_reverse]

/-- Empty-or-blank input is normalized into the continuation prompt. -/
theorem normalize_empty (c : List ContentBlock)
    (h : c = [] ∨ ∃ t rest, c = ContentBlock.textBlock t :: rest ∧ strTrim t = "") :
    normalizeUserContent c = [ContentBlock.textBlock continuationPromptText] := by
  rcases h with rfl | ⟨t, rest, rfl, ht⟩
  · rfl
  · simp [normalizeUserContent, ht]

/-! ### Claim theorems -/

/-- C9: if the conversation history contains exactly two messages when the
abort path runs, `cancelCurrentRequest` returns immediately: the
request-cancelled flag is not set, the state is not set to `ABORTED`, no
history entry is rewritten and no resume ask is issued. -/
theorem c9_two_messages_noop (s : ExecState)
    (h : s.claudeMessages.length = 2) :
    cancelCurrentRequest s = (s, []) := by
  cases hc : s.isRequestCancelled <;> simp [cancelCurrentRequest, h, hc]

/-- C9 witness. -/
theorem c9_two_messages_noop_witness :
    let s := { baseState with claudeMessages := [sampleSay 1, sampleSay 2] }
    s.claudeMessages.length = 2 ∧ cancelCurrentRequest s = (s, []) :=
  ⟨rfl, c9_two_messages_noop _ rfl⟩

/-- C6: `makeClaudeRequest` is a no-op — it returns the state unchanged and
performs no observable effect — unless the state is exactly
`WAITING_FOR_API`, a pending user-content payload exists, the request is not
cancelled and no abort is in progress. -/
theorem c6_makeRequest_guard (s : ExecState) (reqTs now : Nat)
    (h : s.state ≠ TaskState.WAITING_FOR_API ∨ s.currentUserContent = none ∨
         s.isRequestCancelled = true ∨ s.isAborting = true) :
    makeClaudeRequest s reqTs now = (s, []) := by
  unfold makeClaudeRequest
  rw [if_pos]
  rcases h with h | h | h | h
  · exact Or.inl h
  · exact Or.inr (Or.inl h)
  · exact Or.inr (Or.inr (Or.inl h))
  · exact Or.inr (Or.inr (Or.inr h))

/-- C6 witness (state `IDLE` is not `WAITING_FOR_API`). -/
theorem c6_makeRequest_guard_witness :
    (baseState.state ≠ TaskState.WAITING_FOR_API ∨ baseState.currentUserContent = none ∨
      baseState.isRequestCancelled = true ∨ baseState.isAborting = true) ∧
    makeClaudeRequest baseState 1 2 = (baseState, []) :=
  ⟨Or.inl (by decide), c6_makeRequest_guard baseState 1 2 (Or.inl (by decide))⟩

/-- C10: `handleAskResponse` ignores any caller-side correlation: it resolves
the ask whose timestamp is that of the most recent message of type `ask` in
the history; with no `ask` message the call has no observable effect. -/
theorem c10_ask_correlation (msgs : List ClaudeMessage) (resp : RespKind) :
    (∀ m : ClaudeMessage,
       (msgs.filter (fun x => x.mtype == MsgType.ask)).getLast? = some m →
       handleAskResponse msgs resp = [Event.resolvedAsk m.ts resp]) ∧
    (msgs.filter (fun x => x.mtype == MsgType.ask) = [] →
       handleAskResponse msgs resp = []) := by
  constructor
  · intro m hm
    unfold handleAskResponse
    rw [reverse_find?_eq_getLast?_filter, hm]
  · intro hnone
    unfold handleAskResponse
    rw [reverse_find?_eq_getLast?_filter, hnone]
    rfl

/-- C10 witness: the caller's correlation plays no role; the ask at ts 2 (the
most recent `ask`-type message) is the one resolved. -/
theorem c10_ask_correlation_witness :
    (c10Msgs.filter (fun x => x.mtype == MsgType.ask)).getLast? =
      some (sampleToolAsk 2 (some ApprovalState.pending)) ∧
    handleAskResponse c10Msgs RespKind.yesButtonTapped =
      [Event.resolvedAsk 2 RespKind.yesButtonTapped] :=
  ⟨by decide, (c10_ask_correlation c10Msgs RespKind.yesButtonTapped).1
      (sampleToolAsk 2 (some ApprovalState.pending)) (by decide)⟩

/-- C7 counterexample: the claim demands that a forced flush always empties
the buffer, for every buffer state; with a whitespace-only (non-empty) buffer
and a valid reply id the code returns early, leaving the buffer untouched and
appending nothing. -/
theorem c7_counterexample :
    c7CexState.textBuffer = " " ∧ (" " : String) ≠ "" ∧
    (flushTextBuffer c7CexState (some 5) true 0).1.textBuffer = " " ∧
    (flushTextBuffer c7CexState (some 5) true 0).2 = [] := by
  decide

/-- C7 (amended): for every buffer state whose buffered text is not
whitespace-only and every non-null, non-zero reply identity, a forced flush
empties the buffer and appends exactly the previously buffered text to the
identified conversation entry, regardless of the size threshold and the time
since the last flush. -/
theorem c7_forced_flush (s : ExecState) (rid now : Nat) (m : ClaudeMessage)
    (hbuf : strTrim s.textBuffer ≠ "") (hrid : rid ≠ 0)
    (hfind : s.claudeMessages.find? (fun x => x.ts == rid) = some m) :
    (flushTextBuffer s (some rid) true now).1.textBuffer = "" ∧
    (flushTextBuffer s (some rid) true now).1.claudeMessages.find?
        (fun x => x.ts == rid) =
      some { m with text := some (m.text.getD "" ++ s.textBuffer) } ∧
    (flushTextBuffer s (some rid) true now).2 =
      [Event.appendedToMessage rid s.textBuffer, Event.postedState] := by
  have hm : m.ts = rid := by
    have := List.find?_some hfind
    simpa using this
  unfold flushTextBuffer
  rw [if_neg (by simp [hbuf, hrid])]
  refine ⟨rfl, ?_, rfl⟩
  show (appendTextToMessages s.claudeMessages rid s.textBuffer).find? (fun x => x.ts == rid) =
    some { m with text := some (m.text.getD "" ++ s.textBuffer) }
  unfold appendTextToMessages
  rw [find?_map_pred _ _ ?hp, hfind]
  case hp =>
    intro x
    by_cases hx : x.ts = rid <;> simp [hx]
  simp [hm]

/-- C7 witness. -/
theorem c7_forced_flush_witness :
    strTrim c7WitState.textBuffer ≠ "" ∧ (5 : Nat) ≠ 0 ∧
    c7WitState.claudeMessages.find? (fun x => x.ts == 5) = some (sampleSay 5) ∧
    ((flushTextBuffer c7WitState (some 5) true 103).1.textBuffer = "" ∧
     (flushTextBuffer c7WitState (some 5) true 103).1.claudeMessages.find?
         (fun x => x.ts == 5) =
       some { sampleSay 5 with
              text := some ((sampleSay 5).text.getD "" ++ c7WitState.textBuffer) } ∧
     (flushTextBuffer c7WitState (some 5) true 103).2 =
       [Event.appendedToMessage 5 c7WitState.textBuffer, Event.postedState]) :=
  ⟨by decide, by decide, rfl,
   c7_forced_flush c7WitState 5 103 (sampleSay 5) (by decide) (by decide) rfl⟩

/-- C5: a round that finishes with zero tool results sets the next round's
pending user content to exactly the corrective must-use-a-tool instruction,
sets the state to `WAITING_FOR_API`, and starts a new request round. -/
theorem c5_must_use_tool (s : ExecState) (item : ApiHistoryItem)
    (hcr : s.isRequestCancelled = false) (hab : s.isAborting = false) :
    (finishProcessingResponse s item []).1.currentUserContent =
      some [ContentBlock.textBlock mustUseToolText] ∧
    (finishProcessingResponse s item []).1.state = TaskState.WAITING_FOR_API ∧
    (finishProcessingResponse s item []).2 = [Event.invokedMakeRequest] := by
  unfold finishProcessingResponse
  rw [if_neg (by simp [hcr, hab])]
  exact ⟨rfl, rfl, rfl⟩

/-- C5 witness. -/
theorem c5_must_use_tool_witness :
    c2WitState.isRequestCancelled = false ∧ c2WitState.isAborting = false ∧
    ((finishProcessingResponse c2WitState (sampleAssistantItem 7 "") []).1.currentUserContent =
       some [ContentBlock.textBlock mustUseToolText] ∧
     (finishProcessingResponse c2WitState (sampleAssistantItem 7 "") []).1.state =
       TaskState.WAITING_FOR_API ∧
     (finishProcessingResponse c2WitState (sampleAssistantItem 7 "") []).2 =
       [Event.invokedMakeRequest]) :=
  ⟨rfl, rfl, c5_must_use_tool c2WitState (sampleAssistantItem 7 "") rfl rfl⟩

/-- C8 counterexample: the claim requires `newMessage` to replace empty input
(a blank first text block) by the canonical continuation prompt, but
`newMessage`, unlike `startTask`/`resumeTask`, stores its input unchanged. -/
theorem c8_counterexample :
    baseState.isAborting = false ∧
    strTrim " " = "" ∧
    (newMessage baseState [ContentBlock.textBlock " "] 9).s.currentUserContent =
      some [ContentBlock.textBlock " "] ∧
    some [ContentBlock.textBlock " "] ≠
      some [ContentBlock.textBlock continuationPromptText] := by
  decide

/-- C8 (amended): with no abort in progress, `startTask` and `resumeTask`
(the latter only from `WAITING_FOR_USER`) turn empty input — an empty content
list or a blank first text block — into the canonical continuation prompt and
set the state to `WAITING_FOR_API` before beginning the round; `newMessage`
also sets `WAITING_FOR_API` but stores the given content unchanged, without
normalizing it. -/
theorem c8_empty_input_normalization (s : ExecState) (c : List ContentBlock) (sayTs : Nat)
    (hab : s.isAborting = false)
    (hempty : c = [] ∨ ∃ t rest, c = ContentBlock.textBlock t :: rest ∧ strTrim t = "") :
    ((startTask s c).s.currentUserContent =
        some [ContentBlock.textBlock continuationPromptText] ∧
     (startTask s c).s.state = TaskState.WAITING_FOR_API ∧
     (startTask s c).thrown = none) ∧
    (s.state = TaskState.WAITING_FOR_USER →
      (resumeTask s c).s.currentUserContent =
        some [ContentBlock.textBlock continuationPromptText] ∧
      (resumeTask s c).s.state = TaskState.WAITING_FOR_API ∧
      (resumeTask s c).thrown = none) ∧
    ((newMessage s c sayTs).s.currentUserContent = some c ∧
     (newMessage s c sayTs).s.state = TaskState.WAITING_FOR_API) := by
  have hnorm := normalize_empty c hempty
  refine ⟨?_, ?_, ?_⟩
  · unfold startTask
    rw [if_neg (by simp [hab])]
    simp [hnorm]
  · intro hw
    unfold resumeTask
    rw [if_neg (by simp [hab]), if_pos hw]
    simp [hnorm]
  · unfold newMessage
    rw [if_neg (by simp [hab])]
    cases c with
    | nil => exact ⟨rfl, rfl⟩
    | cons b rest => exact ⟨rfl, rfl⟩

/-- C8 witness. -/
theorem c8_empty_input_normalization_witness :
    c8WitState.isAborting = false ∧
    (([] : List ContentBlock) = [] ∨ ∃ t rest,
      ([] : List ContentBlock) = ContentBlock.textBlock t :: rest ∧ strTrim t = "") ∧
    ((startTask c8WitState []).s.currentUserContent =
        some [ContentBlock.textBlock continuationPromptText] ∧
     (startTask c8WitState []).s.state = TaskState.WAITING_FOR_API ∧
     (startTask c8WitState []).thrown = none) ∧
    (c8WitState.state = TaskState.WAITING_FOR_USER →
      (resumeTask c8WitState []).s.currentUserContent =
        some [ContentBlock.textBlock continuationPromptText] ∧
      (resumeTask c8WitState []).s.state = TaskState.WAITING_FOR_API ∧
      (resumeTask c8WitState []).thrown = none) ∧
    ((newMessage c8WitState [] 9).s.currentUserContent = some ([] : List ContentBlock) ∧
     (newMessage c8WitState [] 9).s.state = TaskState.WAITING_FOR_API) :=
  ⟨rfl, Or.inl rfl,
   c8_empty_input_normalization c8WitState [] 9 rfl (Or.inl rfl)⟩

/-- C3: `UNAUTHORIZED`/`PAYMENT_REQUIRED` errors surface a terminal notice,
set the state to `IDLE` and return without a retry ask and without re-entering
`makeClaudeRequest`; every other error asks the user whether to retry,
re-enters `makeClaudeRequest` on an affirmative response (yes or message) and
completes the task otherwise. -/
theorem c3_error_routing (s : ExecState) (err : TaskError) (resp : AskResponse)
    (sayTs : Nat) :
    ((err.type = ErrKind.UNAUTHORIZED ∨ err.type = ErrKind.PAYMENT_REQUIRED) →
      (handleApiError s err resp sayTs).1.state = TaskState.IDLE ∧
      (∃ k, Event.said k err.message sayTs ∈ (handleApiError s err resp sayTs).2) ∧
      (∀ k q, Event.askedUser k q ∉ (handleApiError s err resp sayTs).2) ∧
      Event.invokedMakeRequest ∉ (handleApiError s err resp sayTs).2) ∧
    ((err.type = ErrKind.API_ERROR ∨ err.type = ErrKind.UNKNOWN_ERROR) →
      Event.askedUser AskKind.apiReqFailed err.message ∈ (handleApiError s err resp sayTs).2 ∧
      ((resp.response = RespKind.yesButtonTapped ∨ resp.response = RespKind.messageResponse) →
        Event.invokedMakeRequest ∈ (handleApiError s err resp sayTs).2 ∧
        (handleApiError s err resp sayTs).1.state = TaskState.WAITING_FOR_API) ∧
      (resp.response = RespKind.noButtonTapped →
        (handleApiError s err resp sayTs).1.state = TaskState.COMPLETED ∧
        Event.invokedMakeRequest ∉ (handleApiError s err resp sayTs).2)) := by
  constructor
  · intro h
    have hpm : err.type = ErrKind.PAYMENT_REQUIRED ∨ err.type = ErrKind.UNAUTHORIZED := by
      tauto
    unfold handleApiError sayTo
    rw [if_pos hpm]
    refine ⟨rfl, ?_, ?_, ?_⟩
    · exact ⟨(if err.type = ErrKind.PAYMENT_REQUIRED then SayKind.paymentRequired
        else SayKind.unauthorized), by simp⟩
    · intro k q
      simp
    · simp
  · intro h
    have hne : ¬(err.type = ErrKind.PAYMENT_REQUIRED ∨ err.type = ErrKind.UNAUTHORIZED) := by
      rcases h with h | h <;> simp [h]
    unfold handleApiError sayTo
    rw [if_neg hne]
    by_cases hr : resp.response = RespKind.yesButtonTapped ∨
        resp.response = RespKind.messageResponse
    · rw [if_pos hr]
      refine ⟨by simp, fun _ => ⟨by simp, rfl⟩, fun hno => ?_⟩
      rcases hr with hr | hr <;> rw [hno] at hr <;> cases hr
    · rw [if_neg hr]
      exact ⟨by simp, fun hy => absurd hy hr, fun _ => ⟨rfl, by simp⟩⟩

/-- C3 witness (an `UNAUTHORIZED` error halts with state `IDLE`). -/
theorem c3_error_routing_witness :
    ((sampleErr ErrKind.UNAUTHORIZED).type = ErrKind.UNAUTHORIZED ∨
     (sampleErr ErrKind.UNAUTHORIZED).type = ErrKind.PAYMENT_REQUIRED) ∧
    (handleApiError baseState (sampleErr ErrKind.UNAUTHORIZED) yesResp 3).1.state =
      TaskState.IDLE :=
  ⟨Or.inl rfl,
   ((c3_error_routing baseState (sampleErr ErrKind.UNAUTHORIZED) yesResp 3).1
      (Or.inl rfl)).1⟩

/-- The handler `handleApiError` increments the consecutive-error counter by one,
whatever the error kind and the user's answer. -/
theorem handleApiError_count (s : ExecState) (err : TaskError) (resp : AskResponse)
    (sayTs : Nat) :
    (handleApiError s err resp sayTs).1.consecutiveErrorCount =
      s.consecutiveErrorCount + 1 := by
  unfold handleApiError sayTo
  split
  · rfl
  · split <;> rfl

/-- The handler `handleApiError` leaves the cancellation flags and the pending user
content untouched. -/
theorem handleApiError_frame (s : ExecState) (err : TaskError) (resp : AskResponse)
    (sayTs : Nat) :
    (handleApiError s err resp sayTs).1.isRequestCancelled = s.isRequestCancelled ∧
    (handleApiError s err resp sayTs).1.isAborting = s.isAborting ∧
    (handleApiError s err resp sayTs).1.currentUserContent = s.currentUserContent := by
  unfold handleApiError sayTo
  split
  · exact ⟨rfl, rfl, rfl⟩
  · split <;> exact ⟨rfl, rfl, rfl⟩

/-- After a recoverable error answered affirmatively, the state is back to
`WAITING_FOR_API`. -/
theorem handleApiError_retry_state (s : ExecState) (err : TaskError) (resp : AskResponse)
    (sayTs : Nat)
    (hty : ¬(err.type = ErrKind.PAYMENT_REQUIRED ∨ err.type = ErrKind.UNAUTHORIZED))
    (hr : resp.response = RespKind.yesButtonTapped ∨
      resp.response = RespKind.messageResponse) :
    (handleApiError s err resp sayTs).1.state = TaskState.WAITING_FOR_API := by
  unfold handleApiError sayTo
  rw [if_neg hty, if_pos hr]

/-- The full event trace of a request round that starts while the
consecutive-error counter is at least three: the resume-confirmation ask
comes right after the tool reset and before any request side effect. -/
theorem makeClaudeRequest_resume_ask (s : ExecState) (reqTs now : Nat)
    (c : List ContentBlock)
    (hst : s.state = TaskState.WAITING_FOR_API) (hc : s.currentUserContent = some c)
    (hcr : s.isRequestCancelled = false) (hab : s.isAborting = false)
    (hcount : 3 ≤ s.consecutiveErrorCount) :
    (makeClaudeRequest s reqTs now).2 =
      Event.resetTools :: Event.askedUser AskKind.resumeTask resumeAfterErrorsQuestionText ::
      [Event.addedApiHistory { role := Role.user, ts := none, content := ApiContent.blocks c },
       Event.said SayKind.apiReqStarted (createUserReadableRequest c) reqTs,
       Event.openedStream, Event.startedProcessing reqTs] := by
  simp [makeClaudeRequest, sayTo, hst, hc, hcr, hab, hcount]

/-- C4: three consecutive provider/unknown-error rounds drive the counter to
three, and the next `makeClaudeRequest` issues the resume-confirmation ask
before any request side effect (in particular before the stream is opened). -/
theorem c4_resume_ask_after_three_errors (s0 : ExecState)
    (e1 e2 e3 : TaskError) (r1 r2 r3 : AskResponse) (t1 t2 t3 reqTs now : Nat)
    (c : List ContentBlock) (s1 s2 s3 : ExecState)
    (h0 : s0.consecutiveErrorCount = 0)
    (he1 : e1.type = ErrKind.API_ERROR ∨ e1.type = ErrKind.UNKNOWN_ERROR)
    (he2 : e2.type = ErrKind.API_ERROR ∨ e2.type = ErrKind.UNKNOWN_ERROR)
    (he3 : e3.type = ErrKind.API_ERROR ∨ e3.type = ErrKind.UNKNOWN_ERROR)
    (hr3 : r3.response = RespKind.yesButtonTapped)
    (hcc : s0.isRequestCancelled = false) (hab : s0.isAborting = false)
    (hc : s0.currentUserContent = some c)
    (hs1 : s1 = (handleApiError s0 e1 r1 t1).1)
    (hs2 : s2 = (handleApiError s1 e2 r2 t2).1)
    (hs3 : s3 = (handleApiError s2 e3 r3 t3).1) :
    s3.consecutiveErrorCount = 3 ∧
    ∃ rest, (makeClaudeRequest s3 reqTs now).2 =
      Event.resetTools ::
        Event.askedUser AskKind.resumeTask resumeAfterErrorsQuestionText :: rest ∧
      Event.openedStream ∈ rest := by
  have hcount : s3.consecutiveErrorCount = 3 := by
    rw [hs3, handleApiError_count, hs2, handleApiError_count, hs1, handleApiError_count, h0]
  have hf1 := handleApiError_frame s0 e1 r1 t1
  have hf2 := handleApiError_frame s1 e2 r2 t2
  have hf3 := handleApiError_frame s2 e3 r3 t3
  rw [← hs1] at hf1
  rw [← hs2] at hf2
  rw [← hs3] at hf3
  have hcr3 : s3.isRequestCancelled = false := by
    rw [hf3.1, hf2.1, hf1.1, hcc]
  have hab3 : s3.isAborting = false := by
    rw [hf3.2.1, hf2.2.1, hf1.2.1, hab]
  have hc3 : s3.currentUserContent = some c := by
    rw [hf3.2.2, hf2.2.2, hf1.2.2, hc]
  have hst3 : s3.state = TaskState.WAITING_FOR_API := by
    rw [hs3]
    apply handleApiError_retry_state
    · rcases he3 with h | h <;> simp [h]
    · exact Or.inl hr3
  refine ⟨hcount, ?_⟩
  refine ⟨_, makeClaudeRequest_resume_ask s3 reqTs now c hst3 hc3 hcr3 hab3
    (by rw [hcount]), ?_⟩
  simp

/-- C4 witness. -/
theorem c4_resume_ask_after_three_errors_witness :
    (c4WitState.consecutiveErrorCount = 0 ∧
     c4WitState.isRequestCancelled = false ∧ c4WitState.isAborting = false ∧
     c4WitState.currentUserContent = some [ContentBlock.textBlock "hi"]) ∧
    ((handleApiError (handleApiError (handleApiError c4WitState
          (sampleErr ErrKind.API_ERROR) yesResp 1).1
        (sampleErr ErrKind.API_ERROR) yesResp 2).1
      (sampleErr ErrKind.API_ERROR) yesResp 3).1.consecutiveErrorCount = 3 ∧
    ∃ rest, (makeClaudeRequest (handleApiError (handleApiError (handleApiError c4WitState
          (sampleErr ErrKind.API_ERROR) yesResp 1).1
        (sampleErr ErrKind.API_ERROR) yesResp 2).1
      (sampleErr ErrKind.API_ERROR) yesResp 3).1 10 11).2 =
      Event.resetTools ::
        Event.askedUser AskKind.resumeTask resumeAfterErrorsQuestionText :: rest ∧
      Event.openedStream ∈ rest) :=
  ⟨⟨rfl, rfl, rfl, rfl⟩,
   c4_resume_ask_after_three_errors c4WitState
     (sampleErr ErrKind.API_ERROR) (sampleErr ErrKind.API_ERROR) (sampleErr ErrKind.API_ERROR)
     yesResp yesResp yesResp 1 2 3 10 11 [ContentBlock.textBlock "hi"]
     _ _ _ rfl (Or.inl rfl) (Or.inl rfl) (Or.inl rfl) rfl rfl rfl rfl rfl rfl rfl⟩

/-- Dropping a matching prefix is idempotent. -/
theorem dropWhile_idem {α : Type} (p : α → Bool) (l : List α) :
    (l.dropWhile p).dropWhile p = l.dropWhile p := by
  induction l with
  | nil => rfl
  | cons a t ih =>
    by_cases hp : p a = true
    · simp [List.dropWhile_cons, hp, ih]
    · simp [List.dropWhile_cons, hp]

/-- Dropping a matching prefix never lengthens a list. -/
theorem length_dropWhile_le {α : Type} (p : α → Bool) (l : List α) :
    (l.dropWhile p).length ≤ l.length := by
  induction l with
  | nil => simp
  | cons a t ih =>
    rw [List.dropWhile_cons]
    split
    · exact le_trans ih (Nat.le_succ _)
    · simp

/-- A list fixed by `dropWhile` has a head that fails the predicate. -/
theorem dropWhile_fixed_head {α : Type} (p : α → Bool) (a : α) (t : List α)
    (h : (a :: t).dropWhile p = a :: t) : p a = false := by
  by_cases hp : p a = true
  · rw [List.dropWhile_cons_of_pos hp] at h
    have hlen := length_dropWhile_le p t
    rw [h] at hlen
    simp at hlen
  · simpa using hp

/-- A prefix of a list fixed by `dropWhile` is itself fixed. -/
theorem dropWhile_prefix_fixed {α : Type} (p : α → Bool) (l pre post : List α)
    (hfix : l.dropWhile p = l) (hsplit : l = pre ++ post) :
    pre.dropWhile p = pre := by
  cases pre with
  | nil => rfl
  | cons a t =>
    have hpa : p a = false := by
      cases l with
      | nil => simp at hsplit
      | cons b u =>
        simp only [List.cons_append] at hsplit
        injection hsplit with h1 h2
        subst h1
        exact dropWhile_fixed_head p b u hfix
    exact List.dropWhile_cons_of_neg (by simp [hpa])

/-- Removing a trailing segment (by the reverse/dropWhile trick) of a list
fixed by `dropWhile` yields a list still fixed by `dropWhile`. -/
theorem trim_reverse_fixed {α : Type} (p : α → Bool) (u : List α)
    (hu : u.dropWhile p = u) :
    ((u.reverse.dropWhile p).reverse).dropWhile p = (u.reverse.dropWhile p).reverse := by
  apply dropWhile_prefix_fixed p u _ (u.reverse.takeWhile p).reverse hu
  calc u = u.reverse.reverse := (List.reverse_reverse u).symm
    _ = (u.reverse.takeWhile p ++ u.reverse.dropWhile p).reverse := by
        rw [List.takeWhile_append_dropWhile]
    _ = (u.reverse.dropWhile p).reverse ++ (u.reverse.takeWhile p).reverse :=
        List.reverse_append _ _

/-- Trimming (drop leading, then trailing, matching elements) is idempotent. -/
theorem trim_list_idem {α : Type} (p : α → Bool) (l : List α) :
    (((((l.dropWhile p).reverse.dropWhile p).reverse.dropWhile p).reverse.dropWhile p).reverse) =
      ((l.dropWhile p).reverse.dropWhile p).reverse := by
  rw [trim_reverse_fixed p (l.dropWhile p) (dropWhile_idem p l), List.reverse_reverse,
    dropWhile_idem]

/-- Trimming a string is idempotent. -/
theorem strTrim_idem (x : String) : strTrim (strTrim x) = strTrim x :=
  congrArg String.mk (trim_list_idem Char.isWhitespace x.data)

/-- A hit in the left part of an append is the hit of the whole. -/
theorem find?_append_left {α : Type} (p : α → Bool) (l r : List α) (m : α)
    (h : l.find? p = some m) : (l ++ r).find? p = some m := by
  rw [List.find?_append, h]
  rfl

/-- After updating the API-history turn keyed `t`, looking the key up finds
exactly the patch (with its identity restored). -/
theorem updateApiHistoryItem_find (hist : List ApiHistoryItem) (t : Nat)
    (item m : ApiHistoryItem)
    (h : hist.find? (fun x => x.ts == some t) = some m) :
    (updateApiHistoryItem hist t item).find? (fun x => x.ts == some t) =
      some { item with ts := some t } := by
  unfold updateApiHistoryItem
  rw [find?_map_pred _ _ ?hp, h]
  case hp =>
    intro x
    by_cases hx : x.ts = some t <;> simp [hx]
  have hm : m.ts = some t := by simpa using List.find?_some h
  simp [hm]

/-- The handler `handleApiError` changes the API history exactly by the trailing-entry
repair, in every branch. -/
theorem handleApiError_hist (s : ExecState) (err : TaskError) (resp : AskResponse)
    (sayTs : Nat) :
    (handleApiError s err resp sayTs).1.apiConversationHistory =
      fixLastAssistant s.apiConversationHistory := by
  unfold handleApiError sayTo
  split
  · rfl
  · split <;> rfl

/-- Past its guard, `finishProcessingResponse` only ever appends to the
history produced by the empty-content repair. -/
theorem finishProcessingResponse_hist_extends (s : ExecState)
    (item : ApiHistoryItem) (toolResults : List ToolResult)
    (hcr : s.isRequestCancelled = false) (hab : s.isAborting = false) :
    ∃ extra, (finishProcessingResponse s item toolResults).1.apiConversationHistory =
      (repairEmptyAssistant s item).apiConversationHistory ++ extra := by
  simp only [finishProcessingResponse]
  rw [if_neg (by simp [hcr, hab])]
  by_cases hlen : 0 < toolResults.length
  · rw [if_pos hlen]
    split
    · exact ⟨_, rfl⟩
    · exact ⟨[], (List.append_nil _).symm⟩
  · rw [if_neg hlen]
    exact ⟨[], (List.append_nil _).symm⟩

/-- The empty-content repair leaves the turn keyed by the assistant turn's
timestamp with a non-blank leading text block. -/
theorem repairEmptyAssistant_find (s : ExecState) (item : ApiHistoryItem) (t : Nat)
    (hts : item.ts = some t) (ht0 : t ≠ 0)
    (hfind : s.apiConversationHistory.find? (fun x => x.ts == some t) = some item)
    (hblocks : ∃ bl, item.content = ApiContent.blocks bl ∧
      (bl = [] ∨ ∃ tx rest, bl = ContentBlock.textBlock tx :: rest)) :
    ∃ it', (repairEmptyAssistant s item).apiConversationHistory.find?
        (fun x => x.ts == some t) = some it' ∧
      ∃ tx rest, it'.content = ApiContent.blocks (ContentBlock.textBlock tx :: rest) ∧
        strTrim tx ≠ "" := by
  obtain ⟨bl, hbl, hshape⟩ := hblocks
  unfold repairEmptyAssistant
  by_cases hb : (apiContentLengthZero item.content || headTextBlockBlank item.content) = true
  · rw [if_pos hb]
    simp only [hts]
    rw [if_pos ht0]
    refine ⟨_, updateApiHistoryItem_find s.apiConversationHistory t _ item hfind, ?_⟩
    exact ⟨failedResponseText, [], rfl, by decide⟩
  · rw [if_neg hb]
    refine ⟨item, hfind, ?_⟩
    rcases hshape with rfl | ⟨tx, rest, rfl⟩
    · exfalso
      apply hb
      simp [apiContentLengthZero, hbl]
    · refine ⟨tx, rest, hbl, ?_⟩
      intro hx
      apply hb
      simp [headTextBlockBlank, hbl, hx]

/-- The trailing-entry repair of the error handler leaves the last assistant
turn (identified by its timestamp) with a non-blank leading text block. -/
theorem fixLastAssistant_find (hist : List ApiHistoryItem) (m : ApiHistoryItem) (t : Nat)
    (hlast : hist.getLast? = some m) (hrole : m.role = Role.assistant)
    (hts : m.ts = some t) (ht0 : t ≠ 0)
    (hfind : hist.find? (fun x => x.ts == some t) = some m)
    (hcontent : (∃ tx rest, m.content = ApiContent.blocks (ContentBlock.textBlock tx :: rest)) ∨
      ∃ s0, m.content = ApiContent.str s0) :
    ∃ it', (fixLastAssistant hist).find? (fun x => x.ts == some t) = some it' ∧
      ∃ tx rest, it'.content = ApiContent.blocks (ContentBlock.textBlock tx :: rest) ∧
        strTrim tx ≠ "" := by
  unfold fixLastAssistant
  simp only [hlast]
  rw [if_pos hrole]
  simp only [hts]
  rw [if_pos ht0]
  rcases hcontent with ⟨tx, rest, hc⟩ | ⟨s0, hc⟩
  · simp only [hc]
    refine ⟨_, updateApiHistoryItem_find hist t _ m hfind, ?_⟩
    by_cases hblank : strTrim tx = ""
    · exact ⟨errorGenerationText, rest, by simp [hblank], by decide⟩
    · refine ⟨strTrim tx, rest, by simp [hblank], ?_⟩
      rw [strTrim_idem]
      exact hblank
  · simp only [hc]
    refine ⟨_, updateApiHistoryItem_find hist t _ m hfind, ?_⟩
    by_cases hblank : strTrim s0 = ""
    · exact ⟨errorGenerationText, [], by simp [hblank], by decide⟩
    · refine ⟨strTrim s0, [], by simp [hblank], ?_⟩
      rw [strTrim_idem]
      exact hblank

/-- C2: a response round that concludes never leaves the round's assistant
history entry with empty or blank text: after `finishProcessingResponse` the
entry keyed by the round's timestamp starts with a non-blank text block
(either the accumulated text or the explicit failure marker), and after
`handleApiError` the trailing assistant entry likewise starts with a
non-blank text block (the trimmed text or the explicit error marker). -/
theorem c2_no_blank_assistant_entry (s : ExecState) (item : ApiHistoryItem)
    (toolResults : List ToolResult) (err : TaskError) (resp : AskResponse)
    (sayTs t : Nat) :
    (s.isRequestCancelled = false → s.isAborting = false →
      item.ts = some t → t ≠ 0 →
      s.apiConversationHistory.find? (fun x => x.ts == some t) = some item →
      (∃ bl, item.content = ApiContent.blocks bl ∧
        (bl = [] ∨ ∃ tx rest, bl = ContentBlock.textBlock tx :: rest)) →
      ∃ it', (finishProcessingResponse s item toolResults).1.apiConversationHistory.find?
          (fun x => x.ts == some t) = some it' ∧
        ∃ tx rest, it'.content = ApiContent.blocks (ContentBlock.textBlock tx :: rest) ∧
          strTrim tx ≠ "") ∧
    (∀ m : ApiHistoryItem, s.apiConversationHistory.getLast? = some m →
      m.role = Role.assistant → m.ts = some t → t ≠ 0 →
      s.apiConversationHistory.find? (fun x => x.ts == some t) = some m →
      ((∃ tx rest, m.content = ApiContent.blocks (ContentBlock.textBlock tx :: rest)) ∨
        ∃ s0, m.content = ApiContent.str s0) →
      ∃ it', (handleApiError s err resp sayTs).1.apiConversationHistory.find?
          (fun x => x.ts == some t) = some it' ∧
        ∃ tx rest, it'.content = ApiContent.blocks (ContentBlock.textBlock tx :: rest) ∧
          strTrim tx ≠ "") := by
  constructor
  · intro hcr hab hts ht0 hfind hblocks
    obtain ⟨extra, hex⟩ := finishProcessingResponse_hist_extends s item toolResults hcr hab
    obtain ⟨it', hit, hprop⟩ := repairEmptyAssistant_find s item t hts ht0 hfind hblocks
    refine ⟨it', ?_, hprop⟩
    rw [hex]
    exact find?_append_left _ _ _ _ hit
  · intro m hlast hrole hts ht0 hfind hcontent
    rw [handleApiError_hist]
    exact fixLastAssistant_find s.apiConversationHistory m t hlast hrole hts ht0 hfind hcontent

/-- C2 witness: a blank assistant turn (ts 7) is repaired by the
round-finishing path. -/
theorem c2_no_blank_assistant_entry_witness :
    (c2WitState.isRequestCancelled = false ∧ c2WitState.isAborting = false ∧
     (sampleAssistantItem 7 "").ts = some 7 ∧ (7 : Nat) ≠ 0 ∧
     c2WitState.apiConversationHistory.find? (fun x => x.ts == some 7) =
       some (sampleAssistantItem 7 "")) ∧
    ∃ it',
      (finishProcessingResponse c2WitState (sampleAssistantItem 7 "")
          []).1.apiConversationHistory.find? (fun x => x.ts == some 7) = some it' ∧
      ∃ tx rest, it'.content = ApiContent.blocks (ContentBlock.textBlock tx :: rest) ∧
        strTrim tx ≠ "" :=
  ⟨⟨rfl, rfl, rfl, by decide, by decide⟩,
   (c2_no_blank_assistant_entry c2WitState (sampleAssistantItem 7 "") []
      (sampleErr ErrKind.API_ERROR) yesResp 0 7).1
     rfl rfl rfl (by decide) (by decide)
     ⟨[ContentBlock.textBlock ""], rfl, Or.inr ⟨"", [], rfl⟩⟩⟩

/-- Aborting (when not already aborting) produces exactly the message list
of `cancelCurrentRequest`; the later cleanup steps do not touch it. -/
theorem abortTask_claudeMessages (s : ExecState) (now : Nat)
    (hab : s.isAborting = false) :
    (abortTask s now).1.claudeMessages =
      (cancelCurrentRequest { s with isAborting := true }).1.claudeMessages := by
  unfold abortTask
  rw [if_neg (by simp [hab])]
  rfl

/-- What the cancellation rewrites do when the most recent tool-approval
entry is neither approved nor errored and the most recent `api_req_started`
entry is not yet done (with the two entries keyed by distinct timestamps). -/
theorem cancelRewrites_spec (msgs : List ClaudeMessage) (tm am : ClaudeMessage)
    (htool : msgs.reverse.find? (fun m => m.askKind == some AskKind.tool) = some tm)
    (hnotappr : (parseTool tm).approvalState ≠ some ApprovalState.approved)
    (hnoterr : (parseTool tm).approvalState ≠ some ApprovalState.error)
    (hfindT : msgs.find? (fun x => x.ts == tm.ts) = some tm)
    (hapi : msgs.reverse.find? isApiReqStartedMsg = some am)
    (hnd : am.isDone = false)
    (hfindA : msgs.find? (fun x => x.ts == am.ts) = some am)
    (hne : am.ts ≠ tm.ts) :
    ((cancelRewrites msgs).1.find? (fun x => x.ts == tm.ts) =
      some { tm with
             toolPayload := some
               { parseTool tm with
                 approvalState := some ApprovalState.error,
                 error := some interruptedToolErrorText } }) ∧
    ((cancelRewrites msgs).1.find? (fun x => x.ts == am.ts) =
      some { am with
        isDone := true, isFetching := false,
        errorText := some requestCancelledText, isError := true }) := by
  have htool' : msgs.reverse.find? isCancellableToolMsg = some tm := by
    apply find?_and _ _ _ _ htool
    simp only [bne_iff_ne, ne_eq]
    exact hnoterr
  have htm : tm.ts ≠ am.ts := fun h => hne h.symm
  simp only [cancelRewrites, htool', hapi]
  rw [if_pos hnotappr]
  simp only [hnd, Bool.not_false, if_pos]
  constructor
  · unfold updateClaudeMessage
    rw [find?_map_pred _ _ ?hp1]
    case hp1 =>
      intro x
      by_cases hx : x.ts = am.ts
      · simp [hx, hne]
      · simp [hx]
    unfold updateAskMsg
    rw [find?_map_pred _ _ ?hp2, hfindT]
    case hp2 =>
      intro x
      by_cases hx : x.ts = tm.ts <;> simp [hx]
    simp [htm]
  · unfold updateClaudeMessage
    rw [find?_map_pred _ _ ?hp3]
    case hp3 =>
      intro x
      by_cases hx : x.ts = am.ts <;> simp [hx]
    unfold updateAskMsg
    rw [find?_map_pred _ _ ?hp4, hfindA]
    case hp4 =>
      intro x
      by_cases hx : x.ts = tm.ts <;> simp [hx]
    simp [htm, hne]

/-- C1 counterexample: the claim reads the rewritten request entry as "the
most recent request-started entry that is not yet done"; but the code takes
the most recent request-started entry outright and rewrites it only when it
is undone.  With a done entry (ts 4) more recent than an undone one (ts 3)
and a pending tool approval (ts 5), the undone entry stays untouched. -/
theorem c1_counterexample :
    c1CexState.isAborting = false ∧ c1CexState.isRequestCancelled = false ∧
    c1CexState.claudeMessages.length ≠ 2 ∧
    c1CexState.claudeMessages.reverse.find? (fun m => m.askKind == some AskKind.tool) =
      some (sampleToolAsk 5 (some ApprovalState.pending)) ∧
    c1CexState.claudeMessages.reverse.find?
        (fun m => isApiReqStartedMsg m && !m.isDone) =
      some (sampleApiStarted 3 false) ∧
    ((abortTask c1CexState 100).1.claudeMessages.find? (fun x => x.ts == 3)).map
        (fun m => (m.isDone, m.isError, m.errorText)) =
      some (false, false, (none : Option String)) := by
  decide

/-- C1 (amended): if `abortTask` runs (no abort already in progress, request
not yet cancelled, more than the first exchange in history) while the most
recent tool-approval entry is neither approved nor errored, that entry is
rewritten to approval state `error` with a non-empty explanatory message; and
the most recent request-started entry, when it is not yet done, is marked
done with the error flag and the error text "Request cancelled by user"
(an older undone request entry behind a done one is not rewritten). -/
theorem c1_abort_rewrites_entries (s : ExecState) (now : Nat) (tm am : ClaudeMessage)
    (hab : s.isAborting = false) (hcr : s.isRequestCancelled = false)
    (hlen : s.claudeMessages.length ≠ 2)
    (htool : s.claudeMessages.reverse.find?
        (fun m => m.askKind == some AskKind.tool) = some tm)
    (hnotappr : (parseTool tm).approvalState ≠ some ApprovalState.approved)
    (hnoterr : (parseTool tm).approvalState ≠ some ApprovalState.error)
    (hfindT : s.claudeMessages.find? (fun x => x.ts == tm.ts) = some tm)
    (hapi : s.claudeMessages.reverse.find? isApiReqStartedMsg = some am)
    (hnd : am.isDone = false)
    (hfindA : s.claudeMessages.find? (fun x => x.ts == am.ts) = some am)
    (hne : am.ts ≠ tm.ts) :
    (∃ m', (abortTask s now).1.claudeMessages.find? (fun x => x.ts == tm.ts) = some m' ∧
       (parseTool m').approvalState = some ApprovalState.error ∧
       (parseTool m').error = some interruptedToolErrorText ∧
       interruptedToolErrorText ≠ "") ∧
    (∃ a', (abortTask s now).1.claudeMessages.find? (fun x => x.ts == am.ts) = some a' ∧
       a'.isDone = true ∧ a'.isError = true ∧
       a'.errorText = some requestCancelledText) := by
  rw [abortTask_claudeMessages s now hab]
  have hmsgs : (cancelCurrentRequest { s with isAborting := true }).1.claudeMessages =
      (cancelRewrites s.claudeMessages).1 := by
    unfold cancelCurrentRequest
    rw [if_neg (by simp [hcr]), if_neg (by simpa using hlen)]
  rw [hmsgs]
  obtain ⟨h1, h2⟩ := cancelRewrites_spec s.claudeMessages tm am htool hnotappr hnoterr
    hfindT hapi hnd hfindA hne
  constructor
  · exact ⟨_, h1, rfl, rfl, by decide⟩
  · exact ⟨_, h2, rfl, rfl, rfl⟩

/-- C1 witness. -/
theorem c1_abort_rewrites_entries_witness :
    (c1WitState.isAborting = false ∧ c1WitState.isRequestCancelled = false ∧
     c1WitState.claudeMessages.length ≠ 2 ∧
     c1WitState.claudeMessages.reverse.find?
         (fun m => m.askKind == some AskKind.tool) =
       some (sampleToolAsk 4 (some ApprovalState.pending)) ∧
     c1WitState.claudeMessages.reverse.find? isApiReqStartedMsg =
       some (sampleApiStarted 3 false) ∧
     (sampleApiStarted 3 false).isDone = false) ∧
    ((∃ m', (abortTask c1WitState 100).1.claudeMessages.find?
          (fun x => x.ts == (sampleToolAsk 4 (some ApprovalState.pending)).ts) = some m' ∧
        (parseTool m').approvalState = some ApprovalState.error ∧
        (parseTool m').error = some interruptedToolErrorText ∧
        interruptedToolErrorText ≠ "") ∧
     (∃ a', (abortTask c1WitState 100).1.claudeMessages.find?
          (fun x => x.ts == (sampleApiStarted 3 false).ts) = some a' ∧
        a'.isDone = true ∧ a'.isError = true ∧
        a'.errorText = some requestCancelledText)) :=
  ⟨⟨rfl, rfl, by decide, by decide, by decide, rfl⟩,
   c1_abort_rewrites_entries c1WitState 100
     (sampleToolAsk 4 (some ApprovalState.pending)) (sampleApiStarted 3 false)
     rfl rfl (by decide) (by decide) (by decide) (by decide) (by decide) (by decide)
     rfl (by decide) (by decide)⟩

end ClaudeCoder